import Mathlib

/- Verification development for the gava-wrapped aggregation engine:
   a shallow embedding of src/services/dataCalculator.js
   (calculatePatientData) and of the /api/patient/:patientId/data route of
   src/server.js.

   Modelling conventions:
   - The backing store (Supabase) is an immutable snapshot of the four
     tables the code queries (profiles, purchase, list_item, list), plus
     one failure flag per query site standing for the store errors the
     code checks; a supabase call never throws, it returns either data or
     an error object.
   - Timestamps: the code builds JS Dates from calendar fields and the
     store compares their toISOString() serialisations against stored
     created_at strings.  The embedding fixes a single UTC-like time
     reference (the spec requires one consistent reference), so a Date is
     represented directly by its calendar fields, ordered as the ISO
     strings are.
   - Numbers: prices are rationals; a stored price is `Option Rat` where
     `none` stands for SQL null or a string parseFloat rejects, so the
     code's parseFloat(x) || 0 becomes parsePrice.
   - JS object iteration: an object keyed by numeric ids enumerates its
     keys in ascending numeric order (OrdinaryOwnPropertyKeys: array-index
     keys first, ascending); an object keyed by date strings enumerates in
     insertion order.  Both are modelled explicitly below.
   - Array.prototype.sort with a consistent comparator is a stable sort
     (ES2019); it is modelled by a stable insertion sort. -/

namespace GavaWrapped

/-- Calendar timestamp, what a stored ISO-8601 created_at denotes.
`key` linearises the fields so that its order agrees with the ISO-string
comparison used by the store's gte / lte / lt filters. -/
structure DateTime where
  year : Int
  month : Nat
  day : Nat
  hour : Nat
  minute : Nat
  second : Nat
  ms : Nat
deriving Repr, DecidableEq

def DateTime.key (d : DateTime) : Int :=
  (((((d.year * 13 + d.month) * 32 + d.day) * 24 + d.hour) * 60 + d.minute) * 60
      + d.second) * 1000 + d.ms

/-- ISO-string comparison a <= b, as used by the gte / lte store filters. -/
def DateTime.leB (a b : DateTime) : Bool := decide (a.key ≤ b.key)

/-- ISO-string comparison a < b, as used by the lt store filter. -/
def DateTime.ltB (a b : DateTime) : Bool := decide (a.key < b.key)

/-- The date-only key produced by toISOString().split('T')[0], i.e. the
YYYY-MM-DD prefix. -/
structure DayKey where
  year : Int
  month : Nat
  day : Nat
deriving Repr, DecidableEq

def dayKeyOf (t : DateTime) : DayKey := ⟨t.year, t.month, t.day⟩

/-- A row of the profiles table (columns the code selects). -/
structure Profile where
  id : Nat
  first_name : String
  last_name : String
deriving Repr, DecidableEq

/-- A row of the purchase table (columns the code selects). -/
structure Purchase where
  id : Nat
  purchase_user : Nat
  created_at : DateTime
deriving Repr, DecidableEq

/-- A row of the list_item table.  The same table is queried both by
purchase_id (purchase-side line items) and by list_id (list-side items). -/
structure LineItem where
  id : Nat
  purchase_id : Option Nat
  list_id : Option Nat
  title : Option String
  price : Option Rat
  thumbnail_url : Option String
  created_at : Option DateTime
  suggested_by : Option Nat
deriving Repr, DecidableEq

/-- A row of the list table (columns the code selects). -/
structure GiftList where
  id : Nat
  name : Option String
  created_at : DateTime
  owner_user_id : Nat
deriving Repr, DecidableEq

/-- The store snapshot one computation reads. -/
structure DB where
  profiles : List Profile
  purchases : List Purchase
  listItems : List LineItem
  lists : List GiftList
deriving Repr

/-- One flag per store query the code issues; `some m` (resp. `true`)
means that query returns an error, with message m where the code reads
the message. -/
structure Failures where
  profileFetch : Option String := none
  purchasesFetch : Option String := none
  itemsFetch : Option String := none
  lastMinutePurchasesFetch : Bool := false
  lastMinuteCountFetch : Bool := false
  listsFetch : Bool := false
  listItemCountsFetch : Bool := false
  userListsFetch : Bool := false
  userListItemsFetch : Bool := false
  itemsOnDayFetch : Bool := false
  suggestedGiftsFetch : Bool := false
  suggestedInfoFetch : Bool := false
deriving Repr, DecidableEq

def noFailures : Failures := {}

/-- JS truthiness of a nullable numeric id: null and 0 are falsy. -/
def jsTruthyId : Option Nat → Bool
  | none => false
  | some n => n != 0

/-- JS `x || d` on a nullable string: null and the empty string are falsy. -/
def jsStrOrD : Option String → String → String
  | none, d => d
  | some s, d => if s = "" then d else s

/-- The code's parseFloat(item.price) || 0: null or unparseable or 0 all
yield 0. -/
def parsePrice : Option Rat → Rat
  | none => 0
  | some q => q

/-- new Date(year, 0, 1): January 1st, midnight. -/
def yearStart (y : Int) : DateTime := ⟨y, 1, 1, 0, 0, 0, 0⟩

/-- new Date(year, 11, 31, 23, 59, 59, 999): December 31st, end of day. -/
def yearEnd (y : Int) : DateTime := ⟨y, 12, 31, 23, 59, 59, 999⟩

/-- new Date(year, 11, 17): month index 11 is December and the day
argument is 1-based, so this is December 17, 00:00:00.000 (the adjacent
source comment claims Dec 18). -/
def lastMinuteStart (y : Int) : DateTime := ⟨y, 12, 17, 0, 0, 0, 0⟩

/-- new Date(year, 11, 26): December 26, 00:00:00.000, used exclusively. -/
def lastMinuteEnd (y : Int) : DateTime := ⟨y, 12, 26, 0, 0, 0, 0⟩

/-- purchase table: purchase_user = pid, created_at in [yearStart, yearEnd]. -/
def purchasesYearQuery (db : DB) (pid : Nat) (y : Int) : List Purchase :=
  db.purchases.filter fun p =>
    p.purchase_user == pid && (yearStart y).leB p.created_at
      && p.created_at.leB (yearEnd y)

/-- purchase table: purchase_user = pid, created_at in
[lastMinuteStart, lastMinuteEnd), end exclusive via lt. -/
def purchasesLastMinuteQuery (db : DB) (pid : Nat) (y : Int) : List Purchase :=
  db.purchases.filter fun p =>
    p.purchase_user == pid && (lastMinuteStart y).leB p.created_at
      && p.created_at.ltB (lastMinuteEnd y)

/-- list_item table: purchase_id in pids. -/
def itemsByPurchaseQuery (db : DB) (pids : List Nat) : List LineItem :=
  db.listItems.filter fun it =>
    match it.purchase_id with
    | some q => pids.contains q
    | none => false

/-- list table: owner_user_id = pid, created_at in the year window. -/
def listsYearQuery (db : DB) (pid : Nat) (y : Int) : List GiftList :=
  db.lists.filter fun l =>
    l.owner_user_id == pid && (yearStart y).leB l.created_at
      && l.created_at.leB (yearEnd y)

/-- list_item table: list_id in lids (no year filter). -/
def listItemsByListQuery (db : DB) (lids : List Nat) : List LineItem :=
  db.listItems.filter fun it =>
    match it.list_id with
    | some q => lids.contains q
    | none => false

/-- list table: owner_user_id = pid (no year filter). -/
def userListsQuery (db : DB) (pid : Nat) : List GiftList :=
  db.lists.filter fun l => l.owner_user_id == pid

def userListIdsOf (db : DB) (pid : Nat) : List Nat :=
  (userListsQuery db pid).map (·.id)

/-- list_item table: list_id in lids, created_at in [lo, hi].  A SQL
comparison on a null created_at is not satisfied. -/
def windowItemsQuery (db : DB) (lids : List Nat) (lo hi : DateTime) : List LineItem :=
  db.listItems.filter fun it =>
    (match it.list_id with
     | some q => lids.contains q
     | none => false)
    && (match it.created_at with
        | some t => lo.leB t && t.leB hi
        | none => false)

def userListItemsQuery (db : DB) (lids : List Nat) (y : Int) : List LineItem :=
  windowItemsQuery db lids (yearStart y) (yearEnd y)

/-- list_item table: list_id in lids, suggested_by not null, created_at in
the year window. -/
def suggestedGiftsQuery (db : DB) (lids : List Nat) (y : Int) : List LineItem :=
  db.listItems.filter fun it =>
    (match it.list_id with
     | some q => lids.contains q
     | none => false)
    && it.suggested_by.isSome
    && (match it.created_at with
        | some t => (yearStart y).leB t && t.leB (yearEnd y)
        | none => false)

/-- profiles table: id in ids. -/
def profilesByIdsQuery (db : DB) (ids : List Nat) : List Profile :=
  db.profiles.filter fun p => ids.contains p.id

/-- Sort key for order('created_at', ascending): items reaching the
ordered query all carry a non-null created_at (the query filters on it). -/
def createdKey (it : LineItem) : Int := (it.created_at.map DateTime.key).getD 0

def createdLE (a b : LineItem) : Prop := createdKey a ≤ createdKey b

instance : DecidableRel createdLE :=
  fun a b => inferInstanceAs (Decidable (createdKey a ≤ createdKey b))

instance : IsTotal LineItem createdLE :=
  ⟨fun a b => Int.le_total (createdKey a) (createdKey b)⟩

instance : IsTrans LineItem createdLE :=
  ⟨fun _ _ _ h1 h2 => le_trans h1 h2⟩

/-- list_item table: list_id in lids, suggested_by is null, created_at in
[lo, hi], ordered by created_at ascending. -/
def itemsOnDayQuery (db : DB) (lids : List Nat) (lo hi : DateTime) : List LineItem :=
  List.insertionSort createdLE
    (db.listItems.filter fun it =>
      (match it.list_id with
       | some q => lids.contains q
       | none => false)
      && it.suggested_by == none
      && (match it.created_at with
          | some t => lo.leB t && t.leB hi
          | none => false))

/-- Own-key enumeration order of a JS object keyed by numeric ids:
array-index keys are listed in ascending numeric order, regardless of
insertion order. -/
def jsNumObjKeys (ks : List Nat) : List Nat :=
  List.insertionSort (· ≤ ·) ks.dedup

/-- The listItemCounts object: per list id, how many fetched items carry
that list_id, enumerated as Object.entries does (ascending id). -/
def listItemCountsOf (items : List LineItem) : List (Nat × Nat) :=
  (jsNumObjKeys (items.filterMap (·.list_id))).map fun lid =>
    (lid, (items.filter fun it => it.list_id == some lid).length)

/-- One step of the maxCount / maxListId scan: strict improvement only. -/
def scanStep (acc : Nat × Option Nat) (e : Nat × Nat) : Nat × Option Nat :=
  if e.2 > acc.1 then (e.2, some e.1) else acc

/-- The maxCount / maxListId scan over Object.entries(listItemCounts),
starting from maxCount = 0, maxListId = null. -/
def scanMax (entries : List (Nat × Nat)) : Nat × Option Nat :=
  entries.foldl scanStep (0, none)

/-- Output of the list-statistics section: totalListsCreated plus the
internal listWithMostItems record (id, name, itemCount). -/
structure ListStatsOut where
  totalListsCreated : Nat
  winner : Option (Nat × String × Nat)
deriving Repr, DecidableEq

/-- The list-statistics section.  The listsError and listItemsCountError
results are destructured but never checked by the code, so a failing
fetch silently degrades to null data (hence []). `if (maxListId)` makes a
zero id fall through to null, and the found list's null name defaults to
"Unnamed List". -/
def listStatsBlock (db : DB) (f : Failures) (pid : Nat) (y : Int) : ListStatsOut :=
  let lists := if f.listsFetch then [] else listsYearQuery db pid y
  { totalListsCreated := lists.length
    winner :=
      if lists.length > 0 then
        let items :=
          if f.listItemCountsFetch then [] else listItemsByListQuery db (lists.map (·.id))
        let mm := scanMax (listItemCountsOf items)
        match mm.2 with
        | some mid =>
          if mid ≠ 0 then
            match lists.find? (fun l => l.id == mid) with
            | some l => some (l.id, jsStrOrD l.name "Unnamed List", mm.1)
            | none => none
          else none
        | none => none
      else none }

/-- One bucket of the itemsByDate object: date key, created_at of the
first item that opened the bucket, running count. -/
structure DayGroup where
  date : DayKey
  datetime : DateTime
  count : Nat
deriving Repr, DecidableEq

/-- One iteration of the itemsByDate forEach: skip items with a null
created_at, skip items whose suggested_by is truthy (non-null and
non-zero), then bump or open the bucket of the item's calendar day.
String-keyed objects enumerate in insertion order, so buckets are kept in
first-occurrence order. -/
def dayStep (groups : List DayGroup) (it : LineItem) : List DayGroup :=
  match it.created_at with
  | none => groups
  | some t =>
    if jsTruthyId it.suggested_by then groups
    else
      let k := dayKeyOf t
      if groups.any (fun g => g.date == k) then
        groups.map fun g => if g.date == k then { g with count := g.count + 1 } else g
      else groups ++ [⟨k, t, 1⟩]

def itemsByDate (items : List LineItem) : List DayGroup :=
  items.foldl dayStep []

/-- The maxDayCount / maxDay scan over Object.values(itemsByDate), in
insertion order, strict improvement only. -/
def pickMaxDay (groups : List DayGroup) : Option DayGroup :=
  (groups.foldl (fun acc g => if g.count > acc.1 then (g.count, some g) else acc)
    (0, none)).2

/-- Most-active-day output: the winning bucket and the re-fetched items of
that day (null when the re-fetch errors). -/
structure ActiveOut where
  mad : Option DayGroup
  itemsOnDay : Option (List LineItem)
deriving Repr, DecidableEq

/-- new Date(maxDay.date) then setHours(0,0,0,0). -/
def dayStartOf (k : DayKey) : DateTime := ⟨k.year, k.month, k.day, 0, 0, 0, 0⟩

/-- new Date(maxDay.date) then setHours(23,59,59,999). -/
def dayEndOf (k : DayKey) : DateTime := ⟨k.year, k.month, k.day, 23, 59, 59, 999⟩

/-- The most-active-day section, given the owned list ids.  A failing
userListItems fetch is checked and skips the section; a failing itemsOnDay
re-fetch is checked and leaves itemsOnDay null while keeping the winning
day. -/
def mostActiveDayBlock (db : DB) (f : Failures) (lids : List Nat) (y : Int) : ActiveOut :=
  if f.userListItemsFetch then ⟨none, none⟩
  else
    let uli := userListItemsQuery db lids y
    if uli.length > 0 then
      match pickMaxDay (itemsByDate uli) with
      | some g =>
        ⟨some g,
         if f.itemsOnDayFetch then none
         else some (itemsOnDayQuery db lids (dayStartOf g.date) (dayEndOf g.date))⟩
      | none => ⟨none, none⟩
    else ⟨none, none⟩

/-- One entry of suggestedGiftCountsArray; name is absent when the
profile-info fetch failed and the name-mapping step was skipped. -/
structure SuggestionEntry where
  suggested_by : Nat
  count : Nat
  name : Option String
deriving Repr, DecidableEq

/-- The suggester id an item contributes to the tally object: the forEach
guards with JS truthiness (`if (suggesterId)`), so a null or zero
suggested_by contributes nothing. -/
def truthySuggester (it : LineItem) : Option Nat :=
  match it.suggested_by with
  | some s => if s ≠ 0 then some s else none
  | none => none

/-- The suggestedGiftCounts object: per truthy suggester id, how many
fetched gifts carry it, enumerated as Object.entries does (ascending id). -/
def suggestedGiftCountsOf (gifts : List LineItem) : List (Nat × Nat) :=
  (jsNumObjKeys (gifts.filterMap truthySuggester)).map fun s =>
    (s, (gifts.filter fun g => g.suggested_by == some s).length)

/-- Comparator order of sort((a, b) => b.count - a.count): a may stay
before b exactly when b.count <= a.count. -/
def countGE (a b : Nat × Nat) : Prop := b.2 ≤ a.2

instance : DecidableRel countGE :=
  fun a b => inferInstanceAs (Decidable (b.2 ≤ a.2))

instance : IsTotal (Nat × Nat) countGE :=
  ⟨fun a b => Nat.le_total b.2 a.2⟩

instance : IsTrans (Nat × Nat) countGE :=
  ⟨fun _ _ _ h1 h2 => le_trans h2 h1⟩

/-- Array.prototype.sort with comparator (a, b) => b.count - a.count: a
stable sort into non-increasing count order. -/
def sortByCountDesc (l : List (Nat × Nat)) : List (Nat × Nat) :=
  List.insertionSort countGE l

/-- profileMap[id] || 'Unknown' over the fetched suggester profiles. -/
def resolveName (profs : List Profile) (s : Nat) : String :=
  match profs.find? (fun p => p.id == s) with
  | some p => p.first_name ++ " " ++ p.last_name
  | none => "Unknown"

/-- The suggested-gifts section, given the owned list ids.  A failing
gifts fetch is checked and yields the empty tally; a failing profile-info
fetch is checked and keeps the counts but skips the name mapping. -/
def suggestionBlock (db : DB) (f : Failures) (lids : List Nat) (y : Int) :
    List SuggestionEntry :=
  if f.suggestedGiftsFetch then []
  else
    let sorted := sortByCountDesc (suggestedGiftCountsOf (suggestedGiftsQuery db lids y))
    if f.suggestedInfoFetch then
      sorted.map fun e => ⟨e.1, e.2, none⟩
    else
      let profs := profilesByIdsQuery db (sorted.map (·.1))
      sorted.map fun e => ⟨e.1, e.2, some (resolveName profs e.1)⟩

/-- Joint output of the user-lists section that hosts both the
most-active-day and the suggested-gifts computations. -/
structure ActiveSugg where
  mad : Option DayGroup
  itemsOnDay : Option (List LineItem)
  tally : List SuggestionEntry
deriving Repr, DecidableEq

/-- The section fetching the user's lists once and running most-active-day
and suggestion tally over them.  A failing userLists fetch is checked and
skips both computations; either computation is skipped when the user owns
no lists. -/
def activeAndSuggestions (db : DB) (f : Failures) (pid : Nat) (y : Int) : ActiveSugg :=
  if f.userListsFetch then ⟨none, none, []⟩
  else
    let lids := userListIdsOf db pid
    let a := if lids.length > 0 then mostActiveDayBlock db f lids y else ⟨none, none⟩
    let tally := if lids.length > 0 then suggestionBlock db f lids y else []
    ⟨a.mad, a.itemsOnDay, tally⟩

/-- One step of the spent reduction: sum + (parseFloat(item.price) || 0). -/
def spentStep (s : Rat) (it : LineItem) : Rat := s + parsePrice it.price

def spentOf (items : List LineItem) : Rat := items.foldl spentStep 0

/-- One step of the mostExpensiveItem reduction: strict improvement only,
so a price tie keeps the accumulator. -/
def pickMoreExpensive (mx it : LineItem) : LineItem :=
  if parsePrice it.price > parsePrice mx.price then it else mx

/-- listItems.reduce(..., listItems[0]): seeded with the first item and
folded over the whole list (first item included); null on an empty list. -/
def mostExpensiveItemOf : List LineItem → Option LineItem
  | [] => none
  | x :: xs => some ((x :: xs).foldl pickMoreExpensive x)

structure MostExpensiveGift where
  title : String
  price : Rat
  thumbnail_url : Option String
deriving Repr, DecidableEq

structure PurchaseTiming where
  earlyBird : Nat
  onTime : Nat
  lastMinute : Nat
deriving Repr, DecidableEq

structure WrappedStats where
  totalGiftsGiven : Nat
  totalGiftsReceived : Nat
  mostExpensiveGift : MostExpensiveGift
  totalSpending : Rat
  peopleExchangedWith : Nat
  mostPopularCategory : String
  giftGivingStreak : Nat
  santaScore : Nat
  lastMinutePurchases : Nat
  mostUsedRetailer : String
  homemadeGifts : Nat
  purchaseTiming : PurchaseTiming
deriving Repr, DecidableEq

structure ListWithMostItemsOut where
  name : String
  itemCount : Nat
deriving Repr, DecidableEq

structure MostActiveDayOut where
  date : DayKey
  datetime : DateTime
  itemCount : Nat
  items : Option (List LineItem)
deriving Repr, DecidableEq

structure ListStatsField where
  totalListsCreated : Nat
  listWithMostItems : Option ListWithMostItemsOut
  mostActiveDay : Option MostActiveDayOut
  suggestedGiftCounts : List SuggestionEntry
deriving Repr, DecidableEq

structure WrappedData where
  profileId : Nat
  year : Int
  stats : WrappedStats
  personalityType : String
  personalityReason : String
  listStats : ListStatsField
deriving Repr, DecidableEq

/-- The last-minute section: purchases in [Dec 17, Dec 26), then a count
of their items.  Both fetch errors are checked and leave the count 0. -/
def lastMinuteItemCount (db : DB) (f : Failures) (pid : Nat) (y : Int) : Nat :=
  if f.lastMinutePurchasesFetch then 0
  else
    let lmp := purchasesLastMinuteQuery db pid y
    if lmp.length > 0 then
      if f.lastMinuteCountFetch then 0
      else (itemsByPurchaseQuery db (lmp.map (·.id))).length
    else 0

/-- mostExpensiveGift assembly: title via `?.title || ''`, price via
parseFloat || 0, thumbnail via `?.thumbnail_url || null`. -/
def mostExpensiveGiftOf (mei : Option LineItem) : MostExpensiveGift :=
  { title :=
      match mei with
      | some it => jsStrOrD it.title ""
      | none => ""
    price :=
      match mei with
      | some it => parsePrice it.price
      | none => 0
    thumbnail_url :=
      match mei with
      | some it =>
        match it.thumbnail_url with
        | some s => if s = "" then none else some s
        | none => none
      | none => none }

/-- The result object literal of calculatePatientData, built from the
fetched line items and the section outputs. -/
def assembleReport (db : DB) (f : Failures) (pid : Nat) (y : Int)
    (listItems : List LineItem) : WrappedData :=
  { profileId := pid
    year := y
    stats :=
      { totalGiftsGiven := listItems.length
        totalGiftsReceived := 0
        mostExpensiveGift := mostExpensiveGiftOf (mostExpensiveItemOf listItems)
        totalSpending := spentOf listItems
        peopleExchangedWith := 0
        mostPopularCategory := ""
        giftGivingStreak := 0
        santaScore := 0
        lastMinutePurchases := lastMinuteItemCount db f pid y
        mostUsedRetailer := ""
        homemadeGifts := 0
        purchaseTiming := ⟨0, 0, lastMinuteItemCount db f pid y⟩ }
    personalityType := ""
    personalityReason := ""
    listStats :=
      { totalListsCreated := (listStatsBlock db f pid y).totalListsCreated
        listWithMostItems :=
          (listStatsBlock db f pid y).winner.map fun w => ⟨w.2.1, w.2.2⟩
        mostActiveDay :=
          (activeAndSuggestions db f pid y).mad.map fun g =>
            ⟨g.date, g.datetime, g.count, (activeAndSuggestions db f pid y).itemsOnDay⟩
        suggestedGiftCounts := (activeAndSuggestions db f pid y).tally } }

/-- A thrown JS error value: its class (Error, RangeError, ...) and its
message. -/
structure JSError where
  cls : String
  message : String
deriving Repr, DecidableEq

instance {ε : Type u} {α : Type v} [DecidableEq ε] [DecidableEq α] :
    DecidableEq (Except ε α) := fun a b =>
  match a, b with
  | .ok x, .ok y =>
    if h : x = y then .isTrue (by rw [h]) else .isFalse (by intro hc; cases hc; exact h rfl)
  | .error x, .error y =>
    if h : x = y then .isTrue (by rw [h]) else .isFalse (by intro hc; cases hc; exact h rfl)
  | .ok _, .error _ => .isFalse (by intro hc; cases hc)
  | .error _, .ok _ => .isFalse (by intro hc; cases hc)

/-- The store queries calculatePatientData can issue, in source order. -/
inductive Fetch
  | profile
  | purchases
  | items
  | lastMinutePurchases
  | lastMinuteCount
  | lists
  | listItemCounts
  | userLists
  | userListItems
  | itemsOnDay
  | suggestedGifts
  | suggestedInfo
deriving Repr, DecidableEq

/-- The profiles .select(*).eq(id).single() call: supabase .single()
errors unless exactly one row matches (PGRST116). -/
def getProfileResult (db : DB) (f : Failures) (pid : Nat) : Except String Profile :=
  match f.profileFetch with
  | some m => .error m
  | none =>
    match db.profiles.filter (fun p => p.id == pid) with
    | [p] => .ok p
    | _ => .error "JSON object requested, multiple (or no) rows returned"

def purchasesResult (db : DB) (f : Failures) (pid : Nat) (y : Int) :
    Except String (List Purchase) :=
  match f.purchasesFetch with
  | some m => .error m
  | none => .ok (purchasesYearQuery db pid y)

/-- The line-items fetch, issued only when there is at least one purchase
id; otherwise listItems is [] without a fetch. -/
def itemsResult (db : DB) (f : Failures) (pids : List Nat) :
    Except String (List LineItem) :=
  if pids.length > 0 then
    match f.itemsFetch with
    | some m => .error m
    | none => .ok (itemsByPurchaseQuery db pids)
  else .ok []

/-- Which non-critical fetches the success path issues (site reached =
fetch attempted, whether or not it errors), in source order. -/
def nonCriticalLog (db : DB) (f : Failures) (pid : Nat) (y : Int) : List Fetch :=
  (if !f.lastMinutePurchasesFetch && (purchasesLastMinuteQuery db pid y).length > 0 then
     [Fetch.lastMinutePurchases, Fetch.lastMinuteCount]
   else [Fetch.lastMinutePurchases])
  ++ [Fetch.lists]
  ++ (if (if f.listsFetch then ([] : List GiftList) else listsYearQuery db pid y).length > 0 then
        [Fetch.listItemCounts]
      else [])
  ++ [Fetch.userLists]
  ++ (if f.userListsFetch then []
      else if (userListIdsOf db pid).length > 0 then
        [Fetch.userListItems]
          ++ (if !f.userListItemsFetch
                && (userListItemsQuery db (userListIdsOf db pid) y).length > 0
                && (pickMaxDay (itemsByDate (userListItemsQuery db (userListIdsOf db pid) y))).isSome then
                [Fetch.itemsOnDay]
              else [])
          ++ [Fetch.suggestedGifts]
          ++ (if !f.suggestedGiftsFetch then [Fetch.suggestedInfo] else [])
      else [])

/-- The engine entry point.  `year = none` stands for a non-numeric
(NaN) year: new Date(NaN, 0, 1) is an Invalid Date, whose toISOString()
on the very first log line throws RangeError "Invalid time value" before
any fetch.  The three critical fetches (profile, purchases, line items)
throw on error; everything afterwards recovers locally and always
returns a report.  The second component records which fetch sites were
reached. -/
def calculatePatientData (db : DB) (f : Failures) (pid : Nat) (year : Option Int) :
    Except JSError WrappedData × List Fetch :=
  match year with
  | none => (.error ⟨"RangeError", "Invalid time value"⟩, [])
  | some y =>
    match getProfileResult db f pid with
    | .error m => (.error ⟨"Error", "Failed to fetch profile: " ++ m⟩, [.profile])
    | .ok _ =>
      match purchasesResult db f pid y with
      | .error m => (.error ⟨"Error", "Failed to fetch purchases: " ++ m⟩, [.profile, .purchases])
      | .ok purchases =>
        match itemsResult db f (purchases.map (·.id)) with
        | .error m =>
          (.error ⟨"Error", "Failed to fetch list items: " ++ m⟩,
           [.profile, .purchases, .items])
        | .ok listItems =>
          (.ok (assembleReport db f pid y listItems),
           [.profile, .purchases]
             ++ (if (purchases.map (·.id)).length > 0 then [.items] else [])
             ++ nonCriticalLog db f pid y)

/-- JavaScript parseInt in base 10: optional sign then leading decimal
digits; none stands for NaN. -/
def parseIntJS (s : String) : Option Int :=
  let t := s.toList.dropWhile (· == ' ')
  let sign : Int := if t.head? == some '-' then -1 else 1
  let rest := if t.head? == some '-' || t.head? == some '+' then t.drop 1 else t
  let ds := rest.takeWhile (·.isDigit)
  if ds.isEmpty then none
  else some (sign * (ds.foldl (fun acc c => acc * 10 + (c.toNat - 48)) 0 : Nat))

/-- An HTTP response of the route, reduced to the fields the handler
sets: status, the error field, the message field, the JSON body. -/
structure HttpResponse where
  status : Nat
  errorField : Option String
  message : Option String
  body : Option WrappedData
deriving Repr, DecidableEq

/-- The /api/patient/:patientId/data handler of src/server.js.  `now`
stands for new Date().getFullYear(); the year query parameter falls back
to it when absent or empty (falsy), otherwise it is parseInt-ed and
passed through NaN and all.  The patient id is modelled by its numeric
value, with 0 playing the falsy value rejected by `if (!patientId)`.
Every error thrown by the calculation is answered with the same
500 / "Failed to calculate wrapped data" envelope, carrying only the
error's message text. -/
def handler (db : DB) (f : Failures) (now : Int) (patientId : Nat)
    (yearQ : Option String) : HttpResponse :=
  if patientId = 0 then ⟨400, some "Patient ID is required", none, none⟩
  else
    let yearParam : Option Int :=
      match yearQ with
      | some s => if s = "" then some now else parseIntJS s
      | none => some now
    match (calculatePatientData db f patientId yearParam).1 with
    | .ok w => ⟨200, none, none, some w⟩
    | .error e => ⟨500, some "Failed to calculate wrapped data", some e.message, none⟩

/-- Boolean success test on the engine result. -/
def isOkB : Except JSError WrappedData → Bool
  | .ok _ => true
  | .error _ => false

/-- The code's parseFloat(item.price) || 0 applied to an item, the measure
the mostExpensiveItem reduction maximises. -/
def priceOf (it : LineItem) : Rat := parsePrice it.price

/- Concrete store snapshots used as inputs for claim evaluations. -/

def profAda : Profile := ⟨1, "Ada", "Lovelace"⟩

def profBea : Profile := ⟨2, "Bea", "Smith"⟩

def profCal : Profile := ⟨3, "Cal", "Jones"⟩

def listTen : GiftList := ⟨10, some "wishlist", ⟨2024, 2, 1, 0, 0, 0, 0⟩, 1⟩

/-- One purchase on Dec 17 at noon with one line item. -/
def dbC1 : DB :=
  ⟨[profAda], [⟨100, 1, ⟨2024, 12, 17, 12, 0, 0, 0⟩⟩],
   [⟨200, some 100, none, some "gift", some 5, none, none, none⟩], []⟩

/-- An empty store: profile id 1 resolves to no record. -/
def dbEmpty : DB := ⟨[], [], [], []⟩

def fPurchFail : Failures := { purchasesFetch := some "connection reset" }

/-- Three suggested gifts on one owned list: suggesters 2, 3 and the falsy
id 0. -/
def dbC3 : DB :=
  ⟨[profAda, profBea, profCal], [],
   [⟨201, none, some 10, some "a", none, none, some ⟨2024, 6, 1, 0, 0, 0, 0⟩, some 2⟩,
    ⟨202, none, some 10, some "b", none, none, some ⟨2024, 6, 2, 0, 0, 0, 0⟩, some 3⟩,
    ⟨203, none, some 10, some "c", none, none, some ⟨2024, 6, 3, 0, 0, 0, 0⟩, some 0⟩],
   [listTen]⟩

/-- Two owned lists with one item each; the item of list 7 is encountered
first in the grouping pass. -/
def dbC4 : DB :=
  ⟨[profAda], [],
   [⟨301, none, some 7, some "x", none, none, some ⟨2024, 5, 1, 0, 0, 0, 0⟩, none⟩,
    ⟨302, none, some 3, some "y", none, none, some ⟨2024, 5, 2, 0, 0, 0, 0⟩, none⟩],
   [⟨3, some "list-three", ⟨2024, 1, 5, 0, 0, 0, 0⟩, 1⟩,
    ⟨7, some "list-seven", ⟨2024, 1, 6, 0, 0, 0, 0⟩, 1⟩]⟩

/-- A null-priced line item followed by a negatively-priced one. -/
def itemNullPrice : LineItem :=
  ⟨601, some 100, none, some "null-priced", none, none, none, none⟩

def itemNegPrice : LineItem :=
  ⟨602, some 100, none, some "neg", some (-5), none, none, none⟩

def dbC5 : DB :=
  ⟨[profAda], [⟨100, 1, ⟨2024, 7, 1, 0, 0, 0, 0⟩⟩], [itemNullPrice, itemNegPrice], []⟩

/-- One owned list with one owner-added item (for the success-path and
most-active-day fixtures). -/
def itemOwn : LineItem :=
  ⟨501, none, some 10, some "w", none, none, some ⟨2024, 3, 5, 10, 0, 0, 0⟩, none⟩

def dbC7 : DB := ⟨[profAda], [], [itemOwn], [listTen]⟩

def fC7 : Failures := { itemsOnDayFetch := true }

/-- One owned list whose only item was suggested by the falsy id 0. -/
def itemZeroSuggest : LineItem :=
  ⟨401, none, some 10, some "z", none, none, some ⟨2024, 3, 5, 10, 0, 0, 0⟩, some 0⟩

def dbC8 : DB := ⟨[profAda], [], [itemZeroSuggest], [listTen]⟩

/-- One owned list created in the year and no list items at all. -/
def dbC10 : DB := ⟨[profAda], [], [], [listTen]⟩

/-- Fallback report, used only to project successful results out of
Except in concrete witness statements. -/
def dummyReport : WrappedData :=
  { profileId := 0
    year := 0
    stats :=
      { totalGiftsGiven := 0, totalGiftsReceived := 0
        mostExpensiveGift := ⟨"", 0, none⟩, totalSpending := 0
        peopleExchangedWith := 0, mostPopularCategory := "", giftGivingStreak := 0
        santaScore := 0, lastMinutePurchases := 0, mostUsedRetailer := ""
        homemadeGifts := 0, purchaseTiming := ⟨0, 0, 0⟩ }
    personalityType := "", personalityReason := ""
    listStats :=
      { totalListsCreated := 0, listWithMostItems := none
        mostActiveDay := none, suggestedGiftCounts := [] } }

def reportOfOk (x : Except JSError WrappedData) : WrappedData :=
  x.toOption.getD dummyReport

/-- The report computed on dbC7 without failures (witness fixture). -/
def rC9 : WrappedData := reportOfOk (calculatePatientData dbC7 noFailures 1 (some 2024)).1

/-- The report computed on dbC3 without failures (witness fixture). -/
def rC3 : WrappedData := reportOfOk (calculatePatientData dbC3 noFailures 1 (some 2024)).1

/-- The report computed on dbC10 without failures (witness fixture). -/
def rC10 : WrappedData := reportOfOk (calculatePatientData dbC10 noFailures 1 (some 2024)).1

/-- Every successful run of the engine returns the assembled report of
some fetched line-item list: the only error exits are the profile,
purchases and line-items fetches. -/
theorem calc_ok_elim {db : DB} {f : Failures} {pid : Nat} {y : Int} {r : WrappedData}
    (h : (calculatePatientData db f pid (some y)).1 = .ok r) :
    ∃ li, r = assembleReport db f pid y li := by
  unfold calculatePatientData at h
  split at h
  · simp at h
  · rename_i y2 heq
    injection heq with heq2
    subst heq2
    split at h
    · simp at h
    · split at h
      · simp at h
      · split at h
        · simp at h
        · rename_i li heq3
          simp only [] at h
          exact ⟨li, by simpa using h.symm⟩

/-- C1: the claim says the last-minute sub-window spans Dec 18 00:00:00.000
(inclusive) to Dec 26 00:00:00.000 (exclusive).  The code builds its lower
bound as new Date(year, 11, 17), i.e. December 17 — contradicting its own
adjacent comments ("Dec 18, 00:00:00", "between Dec 18 and < Dec 26").
Evaluating the code at the failing input: a purchase created
Dec 17 12:00:00.000 of 2024 (before Dec 18, so outside the claimed window)
is nonetheless counted, giving lastMinutePurchases = 1 where the claim
requires 0. -/
theorem claim_C1_lastMinute_window_bug :
    lastMinuteStart 2024 = ⟨2024, 12, 17, 0, 0, 0, 0⟩
    ∧ dbC1.purchases.map (fun p => p.created_at.ltB ⟨2024, 12, 18, 0, 0, 0, 0⟩) = [true]
    ∧ (calculatePatientData dbC1 noFailures 1 (some 2024)).1.map
        (fun r => r.stats.lastMinutePurchases) = .ok 1 := by
  decide

/-- C2 counterexample: the claim says a missing profile raises a typed
condition distinguishable from a generic computation failure.  In the code
both are plain Error values (same class), differing only in message text,
and the HTTP layer answers both with the identical
500 / "Failed to calculate wrapped data" envelope. -/
theorem claim_C2_counterexample :
    (calculatePatientData dbEmpty noFailures 1 (some 2024)).1 =
      .error ⟨"Error", "Failed to fetch profile: JSON object requested, multiple (or no) rows returned"⟩
    ∧ (calculatePatientData dbC1 fPurchFail 1 (some 2024)).1 =
      .error ⟨"Error", "Failed to fetch purchases: connection reset"⟩
    ∧ (handler dbEmpty noFailures 2024 1 (some "2024")).status =
      (handler dbC1 fPurchFail 2024 1 (some "2024")).status
    ∧ (handler dbEmpty noFailures 2024 1 (some "2024")).errorField =
      (handler dbC1 fPurchFail 2024 1 (some "2024")).errorField
    ∧ (handler dbEmpty noFailures 2024 1 (some "2024")).status = 500 := by
  decide

/-- C3 counterexample: on dbC3 the store holds three list items with a
non-null suggester in the profile's lists and year, yet the report's tally
counts sum to 2 (the suggester id 0 is dropped by the JS truthiness
guard), and the tally [1, 1] is not strictly descending (two suggesters
tie). -/
theorem claim_C3_counterexample :
    (suggestedGiftsQuery dbC3 (userListIdsOf dbC3 1) 2024).length = 3
    ∧ (calculatePatientData dbC3 noFailures 1 (some 2024)).1.map
        (fun r => r.listStats.suggestedGiftCounts.map (·.count)) = .ok [1, 1]
    ∧ ¬ ([1, 1].Pairwise (fun a b : Nat => b < a))
    ∧ (2 : Nat) ≠ 3 := by
  decide

/-- C4 counterexample: on dbC4 the grouping pass encounters list 7 first
(the fetched items carry list ids in order [7, 3]) and both lists tie at
one item, yet the code selects list 3 ("list-three"): Object.entries
enumerates numeric keys in ascending order, so a tie resolves to the
smallest list id, not to the id encountered first. -/
theorem claim_C4_counterexample :
    (listItemsByListQuery dbC4 ((listsYearQuery dbC4 1 2024).map (·.id))).map (·.list_id) =
      [some 7, some 3]
    ∧ listItemCountsOf (listItemsByListQuery dbC4 ((listsYearQuery dbC4 1 2024).map (·.id))) =
      [(3, 1), (7, 1)]
    ∧ (calculatePatientData dbC4 noFailures 1 (some 2024)).1.map
        (fun r => r.listStats.listWithMostItems) = .ok (some ⟨"list-three", 1⟩)
    ∧ "list-three" ≠ "list-seven" := by
  decide

/-- C5 counterexample: with items [null-priced, price -5] the null-priced
item is selected as most expensive — yet not every item's parsed price is
0 (the second parses to -5).  The claim's "unless every item's parsed
price is 0" is therefore false; the selection only requires that no item
parses to a strictly greater price. -/
theorem claim_C5_counterexample :
    mostExpensiveItemOf [itemNullPrice, itemNegPrice] = some itemNullPrice
    ∧ itemNullPrice.price = none
    ∧ parsePrice itemNegPrice.price = -5
    ∧ ((-5 : Rat) = 0 → False)
    ∧ (calculatePatientData dbC5 noFailures 1 (some 2024)).1.map
        (fun r => r.stats.mostExpensiveGift.title) = .ok "null-priced" := by
  decide

/-- C6 counterexample: a non-numeric year ("abc", parseInt NaN) is indeed
rejected before any fetch (the fetch log is empty), but the rejection is a
RangeError thrown by toISOString on the invalid Date — not an InvalidInput
error — and the HTTP layer answers it with the very same generic
500 / "Failed to calculate wrapped data" envelope it uses for any other
failure. -/
theorem claim_C6_counterexample :
    parseIntJS "abc" = none
    ∧ calculatePatientData dbC1 noFailures 1 none =
      (.error ⟨"RangeError", "Invalid time value"⟩, [])
    ∧ "RangeError" ≠ "InvalidInput"
    ∧ handler dbC1 noFailures 2024 1 (some "abc") =
      ⟨500, some "Failed to calculate wrapped data", some "Invalid time value", none⟩
    ∧ handler dbC1 fPurchFail 2024 1 (some "2024") =
      ⟨500, some "Failed to calculate wrapped data",
        some "Failed to fetch purchases: connection reset", none⟩ := by
  decide

/-- C7 counterexample: when the most-active-day item re-fetch fails, the
computation is not aborted — but neither is the reducer's output replaced
by its documented empty default (null): the report keeps the winning day
with items = null inside it. -/
theorem claim_C7_counterexample :
    fC7.itemsOnDayFetch = true
    ∧ (calculatePatientData dbC7 fC7 1 (some 2024)).1.map
        (fun r => r.listStats.mostActiveDay.map (fun d => (d.itemCount, d.items))) =
      .ok (some (1, none))
    ∧ (calculatePatientData dbC7 fC7 1 (some 2024)).1.map
        (fun r => r.listStats.mostActiveDay.isSome) = .ok true := by
  decide

/-- C8 counterexample: the item of dbC8 has the non-null suggester id 0,
yet it is counted by the most-active-day grouping (itemCount 1) and absent
from the suggestion tally — the code tests JS truthiness
(`if (item.suggested_by)`, `if (suggesterId)`), not non-nullness. -/
theorem claim_C8_counterexample :
    itemZeroSuggest.suggested_by = some 0
    ∧ (calculatePatientData dbC8 noFailures 1 (some 2024)).1.map
        (fun r => r.listStats.mostActiveDay.map (·.itemCount)) = .ok (some 1)
    ∧ (calculatePatientData dbC8 noFailures 1 (some 2024)).1.map
        (fun r => r.listStats.suggestedGiftCounts) = .ok [] := by
  decide

/-- C9: in every report returned by calculatePatientData,
stats.purchaseTiming.lastMinute equals stats.lastMinutePurchases — both
fields of the result literal are populated from the same
lastMinutePurchases variable. -/
theorem claim_C9_timing_consistency (db : DB) (f : Failures) (pid : Nat)
    (year : Option Int) (r : WrappedData)
    (h : (calculatePatientData db f pid year).1 = .ok r) :
    r.stats.purchaseTiming.lastMinute = r.stats.lastMinutePurchases := by
  cases year with
  | none => simp [calculatePatientData] at h
  | some y =>
    obtain ⟨li, rfl⟩ := calc_ok_elim h
    rfl

/-- C9 witness: the property evaluated on the concrete report of dbC7. -/
theorem claim_C9_witness :
    rC9.stats.purchaseTiming.lastMinute = rC9.stats.lastMinutePurchases :=
  claim_C9_timing_consistency dbC7 noFailures 1 (some 2024) rC9 (by decide)

/-- C2 amended: when the profile id resolves to no record the computation
does fail (never a zero-stats report), but with a plain Error carrying the
supabase .single() message behind the "Failed to fetch profile:" prefix —
the same Error class, and at the HTTP boundary the same generic
500 / "Failed to calculate wrapped data" envelope, as any other
computation failure; it is distinguishable only by message text. -/
theorem claim_C2_amended (db : DB) (f : Failures) (pid : Nat) (y : Int)
    (h1 : f.profileFetch = none)
    (h2 : db.profiles.filter (fun p => p.id == pid) = []) :
    (calculatePatientData db f pid (some y)).1 =
      .error ⟨"Error", "Failed to fetch profile: JSON object requested, multiple (or no) rows returned"⟩ := by
  have hp : getProfileResult db f pid =
      .error "JSON object requested, multiple (or no) rows returned" := by
    unfold getProfileResult
    rw [h1, h2]
  unfold calculatePatientData
  rw [hp]
  rfl

/-- C2 witness: the amended statement applied to the empty store. -/
theorem claim_C2_witness :
    (calculatePatientData dbEmpty noFailures 1 (some 2024)).1 =
      .error ⟨"Error", "Failed to fetch profile: JSON object requested, multiple (or no) rows returned"⟩ :=
  claim_C2_amended dbEmpty noFailures 1 2024 rfl rfl

/-- C6 amended: a non-numeric (NaN) year makes the computation throw
RangeError "Invalid time value" (from toISOString on the invalid Date)
before any fetch is issued — the fetch log is empty — uniformly in the
store and in every failure configuration; but this is not a typed
InvalidInput error, and the boundary maps it to the generic failure
envelope. -/
theorem claim_C6_amended (db : DB) (f : Failures) (pid : Nat) :
    calculatePatientData db f pid none =
      (.error ⟨"RangeError", "Invalid time value"⟩, []) := rfl

/-- C7 amended: failures of the non-critical fetches never abort the
computation — whenever the profile fetch succeeds and the purchases and
line-item fetches are not failing, a report is returned no matter which
non-critical fetches fail; a failing purchases fetch aborts with the
propagated "Failed to fetch purchases:" error and a failing line-item
fetch (when there are purchases) aborts with "Failed to fetch list
items:".  However (see the counterexample) a failing reducer is not
always replaced by its documented empty default: the most-active-day item
re-fetch failure keeps the winning day with items = null, and the
suggester-name lookup failure keeps the counts without names. -/
theorem claim_C7_amended :
    (∀ (db : DB) (f : Failures) (pid : Nat) (y : Int) (p : Profile),
      f.purchasesFetch = none → f.itemsFetch = none →
      getProfileResult db f pid = .ok p →
      isOkB (calculatePatientData db f pid (some y)).1 = true)
    ∧ (∀ (db : DB) (f : Failures) (pid : Nat) (y : Int) (p : Profile) (m : String),
      getProfileResult db f pid = .ok p → f.purchasesFetch = some m →
      (calculatePatientData db f pid (some y)).1 =
        .error ⟨"Error", "Failed to fetch purchases: " ++ m⟩)
    ∧ (∀ (db : DB) (f : Failures) (pid : Nat) (y : Int) (p : Profile) (m : String),
      getProfileResult db f pid = .ok p → f.purchasesFetch = none →
      f.itemsFetch = some m → purchasesYearQuery db pid y ≠ [] →
      (calculatePatientData db f pid (some y)).1 =
        .error ⟨"Error", "Failed to fetch list items: " ++ m⟩) := by
  refine ⟨?_, ?_, ?_⟩
  · intro db f pid y p h1 h2 hp
    unfold calculatePatientData purchasesResult itemsResult
    rw [hp]
    simp only [h1, h2]
    split
    next m heq =>
      split at heq <;> simp at heq
    next li heq => rfl
  · intro db f pid y p m hp h1
    unfold calculatePatientData purchasesResult
    rw [hp]
    simp only [h1]
  · intro db f pid y p m hp h1 h2 hne
    unfold calculatePatientData purchasesResult itemsResult
    rw [hp]
    simp only [h1, h2]
    have hc : (List.map (fun x => (x : Purchase).id) (purchasesYearQuery db pid y)).length > 0 := by
      simpa using List.length_pos.2 hne
    rw [if_pos hc]

/-- C7 witness: with the items-on-day fetch failing, the computation on
dbC7 still returns a report. -/
theorem claim_C7_witness :
    isOkB (calculatePatientData dbC7 fC7 1 (some 2024)).1 = true :=
  claim_C7_amended.1 dbC7 fC7 1 2024 profAda rfl rfl (by decide)

/-- C10: a profile owning at least one list created in the year window,
none of whose lists is referenced by any list item, yields a report with
totalListsCreated positive and listWithMostItems null — a zero-item list
is never reported as the list with most items. -/
theorem claim_C10_zero_item_lists (db : DB) (pid : Nat) (y : Int) (r : WrappedData)
    (hok : (calculatePatientData db noFailures pid (some y)).1 = .ok r)
    (hlists : (listsYearQuery db pid y).length > 0)
    (hnoitems : ∀ it ∈ db.listItems, ∀ l ∈ listsYearQuery db pid y, it.list_id ≠ some l.id) :
    0 < r.listStats.totalListsCreated ∧ r.listStats.listWithMostItems = none := by
  obtain ⟨li, rfl⟩ := calc_ok_elim hok
  have hitems : listItemsByListQuery db ((listsYearQuery db pid y).map (·.id)) = [] := by
    unfold listItemsByListQuery
    rw [List.filter_eq_nil_iff]
    intro it hit
    cases hl : it.list_id with
    | none => simp [hl]
    | some q =>
      simp only [hl]
      intro hcon
      obtain ⟨l, hlmem, hlid⟩ := List.mem_map.1 (List.elem_iff.1 hcon)
      exact hnoitems it hit l hlmem (by rw [hl, hlid])
  constructor
  · show 0 < (listStatsBlock db noFailures pid y).totalListsCreated
    simpa [listStatsBlock, noFailures] using hlists
  · show ((listStatsBlock db noFailures pid y).winner.map
      (fun w => (⟨w.2.1, w.2.2⟩ : ListWithMostItemsOut))) = none
    simp [listStatsBlock, noFailures, hitems, hlists, listItemCountsOf, jsNumObjKeys, scanMax]

theorem pickMoreExpensive_def (mx it : LineItem) :
    pickMoreExpensive mx it = if priceOf it > priceOf mx then it else mx := rfl

theorem foldl_pick_le (l : List LineItem) :
    ∀ a : LineItem, priceOf a ≤ priceOf (l.foldl pickMoreExpensive a)
      ∧ ∀ it ∈ l, priceOf it ≤ priceOf (l.foldl pickMoreExpensive a) := by
  induction l with
  | nil =>
    intro a
    exact ⟨le_refl _, by intro it h; cases h⟩
  | cons x xs ih =>
    intro a
    rw [List.foldl_cons]
    obtain ⟨h1, h2⟩ := ih (pickMoreExpensive a x)
    have hax : priceOf a ≤ priceOf (pickMoreExpensive a x) := by
      rw [pickMoreExpensive_def]
      split
      · exact le_of_lt (by assumption)
      · exact le_refl _
    have hxx : priceOf x ≤ priceOf (pickMoreExpensive a x) := by
      rw [pickMoreExpensive_def]
      split
      · exact le_refl _
      · exact not_lt.1 (by assumption)
    refine ⟨le_trans hax h1, ?_⟩
    intro it hit
    rcases List.mem_cons.1 hit with rfl | hmem
    · exact le_trans hxx h1
    · exact h2 it hmem

theorem foldl_pick_zero (l : List LineItem) :
    ∀ a : LineItem, (∀ it ∈ l, priceOf it = 0) → priceOf a = 0 →
      l.foldl pickMoreExpensive a = a := by
  induction l with
  | nil => intro a _ _; rfl
  | cons x xs ih =>
    intro a h0 ha
    rw [List.foldl_cons]
    have hpx : pickMoreExpensive a x = a := by
      rw [pickMoreExpensive_def, h0 x (List.mem_cons_self x xs), ha, if_neg (lt_irrefl 0)]
    rw [hpx]
    exact ih a (fun it h => h0 it (List.mem_cons_of_mem x h)) ha

theorem mostExpensive_is_max (l : List LineItem) (m : LineItem)
    (h : mostExpensiveItemOf l = some m) : ∀ it ∈ l, priceOf it ≤ priceOf m := by
  cases l with
  | nil => simp [mostExpensiveItemOf] at h
  | cons x xs =>
    unfold mostExpensiveItemOf at h
    injection h with h2
    subst h2
    exact (foldl_pick_le (x :: xs) x).2

theorem mostExpensive_allzero (l : List LineItem) (hne : l ≠ [])
    (h0 : ∀ it ∈ l, priceOf it = 0) : mostExpensiveItemOf l = l.head? := by
  cases l with
  | nil => cases hne rfl
  | cons x xs =>
    show some (List.foldl pickMoreExpensive x (x :: xs)) = (x :: xs).head?
    rw [foldl_pick_zero (x :: xs) x h0 (h0 x (List.mem_cons_self x xs))]
    rfl

theorem spentStep_none (a : Rat) (nul : LineItem) (h : nul.price = none) :
    spentStep a nul = a := by
  unfold spentStep
  rw [h]
  show a + 0 = a
  ring

/-- C5 amended: an item with a null or unparseable price contributes
exactly 0 to totalSpending, and the selected most-expensive item always
carries the maximal parsed price — so a null-priced item (parsed price 0)
is selected only when no item parses to a positive price (prices may
parse negative, which is what breaks the original "unless every item's
parsed price is 0"); when every item's parsed price is 0 the first item
of the fetched list is selected, price ties never displacing the
accumulator; and the report wires totalSpending and mostExpensiveGift to
exactly these reductions. -/
theorem claim_C5_amended :
    (∀ (pre post : List LineItem) (nul : LineItem), nul.price = none →
      spentOf (pre ++ nul :: post) = spentOf (pre ++ post))
    ∧ (∀ (l : List LineItem) (m : LineItem), mostExpensiveItemOf l = some m →
      ∀ it ∈ l, priceOf it ≤ priceOf m)
    ∧ (∀ (l : List LineItem) (m : LineItem), mostExpensiveItemOf l = some m →
      m.price = none → ∀ it ∈ l, priceOf it ≤ 0)
    ∧ (∀ l : List LineItem, l ≠ [] → (∀ it ∈ l, priceOf it = 0) →
      mostExpensiveItemOf l = l.head?)
    ∧ (∀ (db : DB) (f : Failures) (pid : Nat) (y : Int) (li : List LineItem),
      (assembleReport db f pid y li).stats.totalSpending = spentOf li
      ∧ (assembleReport db f pid y li).stats.mostExpensiveGift =
          mostExpensiveGiftOf (mostExpensiveItemOf li)) := by
  refine ⟨?_, ?_, ?_, ?_, ?_⟩
  · intro pre post nul hn
    unfold spentOf
    rw [List.foldl_append, List.foldl_append, List.foldl_cons, spentStep_none _ _ hn]
  · intro l m h
    exact mostExpensive_is_max l m h
  · intro l m h hnone it hit
    have hle := mostExpensive_is_max l m h it hit
    have hm0 : priceOf m = 0 := by unfold priceOf; rw [hnone]; rfl
    rw [hm0] at hle
    exact hle
  · intro l hne h0
    exact mostExpensive_allzero l hne h0
  · intro db f pid y li
    exact ⟨rfl, rfl⟩

/-- C5 witness: the zero-contribution conjunct applied to the concrete
null-priced item. -/
theorem claim_C5_witness :
    spentOf ([] ++ itemNullPrice :: [itemNegPrice]) = spentOf ([] ++ [itemNegPrice]) :=
  claim_C5_amended.1 [] [itemNegPrice] itemNullPrice rfl

theorem dayStep_truthy (groups : List DayGroup) (it : LineItem)
    (h : jsTruthyId it.suggested_by = true) : dayStep groups it = groups := by
  unfold dayStep
  cases hc : it.created_at with
  | none => rfl
  | some t => simp [h]

theorem itemsByDate_ignores_suggested (items : List LineItem) :
    itemsByDate items = itemsByDate (items.filter fun it => !jsTruthyId it.suggested_by) := by
  suffices h : ∀ groups, List.foldl dayStep groups items =
      List.foldl dayStep groups (items.filter fun it => !jsTruthyId it.suggested_by) from h []
  induction items with
  | nil => intro groups; rfl
  | cons it rest ih =>
    intro groups
    rw [List.foldl_cons]
    cases ht : jsTruthyId it.suggested_by with
    | true =>
      rw [dayStep_truthy groups it ht]
      rw [show (it :: rest).filter (fun x => !jsTruthyId x.suggested_by) =
          rest.filter (fun x => !jsTruthyId x.suggested_by) from by
        simp [List.filter_cons, ht]]
      exact ih groups
    | false =>
      rw [show (it :: rest).filter (fun x => !jsTruthyId x.suggested_by) =
          it :: rest.filter (fun x => !jsTruthyId x.suggested_by) from by
        simp [List.filter_cons, ht]]
      rw [List.foldl_cons]
      exact ih (dayStep groups it)

theorem tally_has_truthy (gifts : List LineItem) (g : LineItem)
    (hg : g ∈ gifts) (ht : jsTruthyId g.suggested_by = true) :
    ∃ s, g.suggested_by = some s ∧
      (s, (gifts.filter fun x => x.suggested_by == some s).length) ∈
        suggestedGiftCountsOf gifts := by
  cases hs : g.suggested_by with
  | none => rw [hs] at ht; simp [jsTruthyId] at ht
  | some s =>
    refine ⟨s, rfl, ?_⟩
    have hs0 : s ≠ 0 := by
      rw [hs] at ht
      simpa [jsTruthyId] using ht
    have hkey : truthySuggester g = some s := by
      unfold truthySuggester
      rw [hs]
      simp [hs0]
    have hks : s ∈ gifts.filterMap truthySuggester :=
      List.mem_filterMap.2 ⟨g, hg, hkey⟩
    have hsort : s ∈ jsNumObjKeys (gifts.filterMap truthySuggester) := by
      unfold jsNumObjKeys
      exact ((List.perm_insertionSort _ _).mem_iff).2 (List.mem_dedup.2 hks)
    exact List.mem_map.2 ⟨s, hsort, rfl⟩

theorem itemsOnDay_never_suggested (db : DB) (lids : List Nat) (lo hi : DateTime)
    (it : LineItem) (h : it ∈ itemsOnDayQuery db lids lo hi) :
    it.suggested_by = none := by
  unfold itemsOnDayQuery at h
  have hmem := ((List.perm_insertionSort createdLE _).mem_iff).1 h
  have hp := (List.mem_filter.1 hmem).2
  simp only [Bool.and_eq_true] at hp
  exact eq_of_beq hp.1.2

/-- C8 amended: an item whose suggester id is truthy (non-null and
non-zero) is ignored by the most-active-day grouping and is counted,
grouped under its suggester's id, in the suggestion tally; and every item
of the winning day's re-fetched list has a null suggester.  (An item with
the non-null but falsy suggester id 0 breaks the original claim: it is
grouped and not tallied — see the counterexample.) -/
theorem claim_C8_amended :
    (∀ items : List LineItem,
      itemsByDate items = itemsByDate (items.filter fun it => !jsTruthyId it.suggested_by))
    ∧ (∀ (gifts : List LineItem) (g : LineItem), g ∈ gifts →
      jsTruthyId g.suggested_by = true →
      ∃ s, g.suggested_by = some s ∧
        (s, (gifts.filter fun x => x.suggested_by == some s).length) ∈
          suggestedGiftCountsOf gifts)
    ∧ (∀ (db : DB) (lids : List Nat) (lo hi : DateTime) (it : LineItem),
      it ∈ itemsOnDayQuery db lids lo hi → it.suggested_by = none) :=
  ⟨itemsByDate_ignores_suggested, tally_has_truthy, itemsOnDay_never_suggested⟩

/-- C8 witness: the winning-day conjunct applied to a concrete item of
the day query on dbC7. -/
theorem claim_C8_witness :
    itemOwn.suggested_by = none :=
  claim_C8_amended.2.2 dbC7 [10] (dayStartOf ⟨2024, 3, 5⟩) (dayEndOf ⟨2024, 3, 5⟩)
    itemOwn (by decide)

theorem length_filterMap_countP {α β : Type} (f : α → Option β) (l : List α) :
    (l.filterMap f).length = l.countP (fun a => (f a).isSome) := by
  induction l with
  | nil => rfl
  | cons a l ih =>
    cases h : f a <;>
      simp [List.filterMap_cons, h, List.countP_cons, ih]

theorem truthySuggester_isSome (g : LineItem) :
    (truthySuggester g).isSome = jsTruthyId g.suggested_by := by
  unfold truthySuggester jsTruthyId
  cases h : g.suggested_by with
  | none => rfl
  | some s =>
    by_cases h0 : s = 0
    · subst h0; simp
    · simp [h0]

theorem sum_tally_counts (gifts : List LineItem) :
    ((suggestedGiftCountsOf gifts).map (·.2)).sum
      = gifts.countP (fun g => jsTruthyId g.suggested_by) := by
  unfold suggestedGiftCountsOf
  rw [List.map_map]
  have hcomp : ((fun e : Nat × Nat => e.2) ∘
      fun s => (s, (gifts.filter fun g => g.suggested_by == some s).length))
      = fun s => (gifts.filter fun g => g.suggested_by == some s).length := rfl
  rw [hcomp]
  have hperm : (jsNumObjKeys (gifts.filterMap truthySuggester)).map
        (fun s => (gifts.filter fun g => g.suggested_by == some s).length)
      |>.Perm ((gifts.filterMap truthySuggester).dedup.map
        (fun s => (gifts.filter fun g => g.suggested_by == some s).length)) := by
    exact (List.perm_insertionSort _ _).map _
  rw [hperm.sum_eq]
  have hpt : ∀ s ∈ (gifts.filterMap truthySuggester).dedup,
      (gifts.filter fun g => g.suggested_by == some s).length
        = (gifts.filterMap truthySuggester).count s := by
    intro s hsd
    have hs0 : s ≠ 0 := by
      obtain ⟨g, hgmem, hkey⟩ := List.mem_filterMap.1 (List.mem_dedup.1 hsd)
      intro h0
      subst h0
      unfold truthySuggester at hkey
      cases hgs : g.suggested_by with
      | none =>
        rw [hgs] at hkey
        simp at hkey
      | some t =>
        rw [hgs] at hkey
        by_cases ht0 : t = 0
        · subst ht0
          simp at hkey
        · simp [ht0] at hkey
    rw [List.count_filterMap, ← List.countP_eq_length_filter]
    apply List.countP_congr
    intro g _
    cases hgs : g.suggested_by with
    | none =>
      unfold truthySuggester
      rw [hgs]
    | some t =>
      unfold truthySuggester
      rw [hgs]
      by_cases ht0 : t = 0
      · subst ht0
        simp [Ne.symm hs0]
      · simp [ht0]
  rw [List.map_congr_left hpt, List.sum_map_count_dedup_eq_length,
    length_filterMap_countP]
  apply List.countP_congr
  intro g _
  rw [truthySuggester_isSome]

/-- C3 amended: in every report of a failure-free run, the
suggestedGiftCounts array is sorted in non-increasing order by count
(ties make it non-strict), and the sum of its counts equals the number of
fetched suggested gifts whose suggester id is truthy — non-null and
non-zero — in the profile's lists within the year window (the fetch keeps
every non-null suggester, but the tally's truthiness guard drops id 0). -/
theorem claim_C3_amended (db : DB) (pid : Nat) (y : Int) (r : WrappedData)
    (hok : (calculatePatientData db noFailures pid (some y)).1 = .ok r) :
    r.listStats.suggestedGiftCounts.Pairwise (fun a b => b.count ≤ a.count)
    ∧ (r.listStats.suggestedGiftCounts.map (·.count)).sum
      = (suggestedGiftsQuery db (userListIdsOf db pid) y).countP
          (fun g => jsTruthyId g.suggested_by) := by
  obtain ⟨li, rfl⟩ := calc_ok_elim hok
  show (activeAndSuggestions db noFailures pid y).tally.Pairwise (fun a b => b.count ≤ a.count)
    ∧ (((activeAndSuggestions db noFailures pid y).tally).map (·.count)).sum
      = (suggestedGiftsQuery db (userListIdsOf db pid) y).countP
          (fun g => jsTruthyId g.suggested_by)
  by_cases hl : (userListIdsOf db pid).length > 0
  · have htally : (activeAndSuggestions db noFailures pid y).tally
        = suggestionBlock db noFailures (userListIdsOf db pid) y := by
      unfold activeAndSuggestions
      simp [noFailures, hl]
    rw [htally]
    have hsugg : suggestionBlock db noFailures (userListIdsOf db pid) y
        = (sortByCountDesc (suggestedGiftCountsOf
            (suggestedGiftsQuery db (userListIdsOf db pid) y))).map
            (fun e => ⟨e.1, e.2, some (resolveName
              (profilesByIdsQuery db ((sortByCountDesc (suggestedGiftCountsOf
                (suggestedGiftsQuery db (userListIdsOf db pid) y))).map (·.1))) e.1)⟩) := by
      unfold suggestionBlock
      simp [noFailures]
    rw [hsugg]
    constructor
    · exact List.Pairwise.map _ (fun a b hab => hab)
        (List.sorted_insertionSort countGE _)
    · rw [List.map_map]
      have h1 : List.map ((fun e : SuggestionEntry => e.count) ∘
          (fun e : Nat × Nat => (⟨e.1, e.2, some (resolveName
            (profilesByIdsQuery db ((sortByCountDesc (suggestedGiftCountsOf
              (suggestedGiftsQuery db (userListIdsOf db pid) y))).map (·.1))) e.1)⟩ :
            SuggestionEntry)))
          (sortByCountDesc (suggestedGiftCountsOf
            (suggestedGiftsQuery db (userListIdsOf db pid) y)))
          = List.map (fun e : Nat × Nat => e.2)
            (sortByCountDesc (suggestedGiftCountsOf
              (suggestedGiftsQuery db (userListIdsOf db pid) y))) := rfl
      rw [h1]
      have hperm2 : (List.map (fun e : Nat × Nat => e.2)
            (sortByCountDesc (suggestedGiftCountsOf
              (suggestedGiftsQuery db (userListIdsOf db pid) y)))).sum
          = (List.map (fun e : Nat × Nat => e.2)
            (suggestedGiftCountsOf
              (suggestedGiftsQuery db (userListIdsOf db pid) y))).sum :=
        ((List.perm_insertionSort countGE _).map (fun e : Nat × Nat => e.2)).sum_eq
      rw [hperm2]
      exact sum_tally_counts _
  · have htally : (activeAndSuggestions db noFailures pid y).tally = [] := by
      unfold activeAndSuggestions
      simp [noFailures, hl]
    rw [htally]
    have hlids : userListIdsOf db pid = [] :=
      List.length_eq_zero.1 (Nat.eq_zero_of_not_pos hl)
    have hq : suggestedGiftsQuery db (userListIdsOf db pid) y = [] := by
      rw [hlids]
      unfold suggestedGiftsQuery
      rw [List.filter_eq_nil_iff]
      intro it hit
      cases hc : it.list_id <;> simp [hc]
    constructor
    · exact List.Pairwise.nil
    · rw [hq]
      rfl

/-- C3 witness: the amended statement evaluated on the concrete report of
dbC3. -/
theorem claim_C3_witness :
    rC3.listStats.suggestedGiftCounts.Pairwise (fun a b => b.count ≤ a.count)
    ∧ (rC3.listStats.suggestedGiftCounts.map (·.count)).sum
      = (suggestedGiftsQuery dbC3 (userListIdsOf dbC3 1) 2024).countP
          (fun g => jsTruthyId g.suggested_by) :=
  claim_C3_amended dbC3 1 2024 rC3 (by decide)

theorem scanMax_append (es : List (Nat × Nat)) (e : Nat × Nat) :
    scanMax (es ++ [e]) = scanStep (scanMax es) e := by
  simp [scanMax, List.foldl_append]

theorem scanMax_spec (es : List (Nat × Nat)) :
    es ≠ [] → (∀ e ∈ es, 0 < e.2) → es.Pairwise (fun a b => a.1 < b.1) →
    ∃ k M, scanMax es = (M, some k) ∧ (k, M) ∈ es
      ∧ (∀ e ∈ es, e.2 ≤ M) ∧ (∀ e ∈ es, e.2 = M → k ≤ e.1) := by
  induction es using List.reverseRecOn with
  | nil => intro h; cases h rfl
  | append_singleton es e ih =>
    intro _ hpos hsort
    rcases eq_or_ne es [] with rfl | hne2
    · refine ⟨e.1, e.2, ?_, List.mem_singleton.2 rfl, ?_, ?_⟩
      · show scanStep (0, none) e = (e.2, some e.1)
        unfold scanStep
        rw [if_pos (hpos e (List.mem_singleton.2 rfl))]
      · intro x hx
        rcases List.mem_singleton.1 hx with rfl
        exact le_refl _
      · intro x hx _
        rcases List.mem_singleton.1 hx with rfl
        exact le_refl _
    · have hps := List.pairwise_append.1 hsort
      obtain ⟨k, M, hsc, hmem, hmax, hfirst⟩ :=
        ih hne2 (fun x hx => hpos x (List.mem_append_left _ hx)) hps.1
      have hlt : ∀ a ∈ es, a.1 < e.1 :=
        fun a ha => hps.2.2 a ha e (List.mem_singleton.2 rfl)
      rw [scanMax_append, hsc]
      by_cases hgt : e.2 > M
      · refine ⟨e.1, e.2, ?_, List.mem_append_right _ (List.mem_singleton.2 rfl), ?_, ?_⟩
        · unfold scanStep
          rw [if_pos hgt]
        · intro x hx
          rcases List.mem_append.1 hx with hxs | hxe
          · exact le_trans (hmax x hxs) (le_of_lt hgt)
          · rcases List.mem_singleton.1 hxe with rfl
            exact le_refl _
        · intro x hx hxe
          rcases List.mem_append.1 hx with hxs | hxe2
          · exact absurd hxe (by have := hmax x hxs; intro hc; rw [hc] at this; exact absurd hgt (not_lt.2 this))
          · rcases List.mem_singleton.1 hxe2 with rfl
            exact le_refl _
      · refine ⟨k, M, ?_, List.mem_append_left _ hmem, ?_, ?_⟩
        · unfold scanStep
          rw [if_neg hgt]
        · intro x hx
          rcases List.mem_append.1 hx with hxs | hxe
          · exact hmax x hxs
          · rcases List.mem_singleton.1 hxe with rfl
            exact not_lt.1 hgt
        · intro x hx hxe
          rcases List.mem_append.1 hx with hxs | hxe2
          · exact hfirst x hxs hxe
          · rcases List.mem_singleton.1 hxe2 with rfl
            exact le_of_lt (hlt (k, M) hmem)

theorem listItemCounts_sorted (items : List LineItem) :
    (listItemCountsOf items).Pairwise (fun a b => a.1 < b.1) := by
  have hkeys : (jsNumObjKeys (items.filterMap (·.list_id))).Pairwise (· < ·) := by
    unfold jsNumObjKeys
    exact List.Sorted.lt_of_le (List.sorted_insertionSort _ _)
      (((List.perm_insertionSort _ _).nodup_iff).2 (List.nodup_dedup _))
  unfold listItemCountsOf
  exact List.Pairwise.map _ (fun a b hab => hab) hkeys

theorem key_mem_of_entry {items : List LineItem} {e : Nat × Nat}
    (he : e ∈ listItemCountsOf items) : e.1 ∈ items.filterMap (·.list_id) := by
  unfold listItemCountsOf at he
  obtain ⟨lid, hlid, heq⟩ := List.mem_map.1 he
  have : lid = e.1 := by rw [← heq]
  subst this
  unfold jsNumObjKeys at hlid
  exact List.mem_dedup.1 (((List.perm_insertionSort _ _).mem_iff).1 hlid)

theorem listItemCounts_pos (items : List LineItem) :
    ∀ e ∈ listItemCountsOf items, 0 < e.2 := by
  intro e he
  obtain ⟨e1, e2⟩ := e
  obtain ⟨it, hitmem, hit⟩ := List.mem_filterMap.1 (key_mem_of_entry he)
  unfold listItemCountsOf at he
  obtain ⟨lid, hlid, heq⟩ := List.mem_map.1 he
  rw [Prod.mk.injEq] at heq
  obtain ⟨h1, h2⟩ := heq
  subst h1
  subst h2
  apply List.length_pos.2
  apply List.ne_nil_of_mem (a := it)
  exact List.mem_filter.2 ⟨hitmem, by simp [hit]⟩

/-- C4 amended: whenever the profile owns lists in the year window (with
positive ids, as database ids are) and some fetched item references them,
the listWithMostItems selection picks an entry carrying the maximal item
count M, and among the entries tied at M the numerically smallest list id
— Object.entries enumerates integer keys in ascending order, so a tie
resolves to the smallest id, not the first encountered; the selection is
a pure function of the fetched records, hence deterministic. -/
theorem claim_C4_amended (db : DB) (pid : Nat) (y : Int)
    (hl : (listsYearQuery db pid y).length > 0)
    (hposl : ∀ l ∈ listsYearQuery db pid y, 0 < l.id)
    (hne : listItemsByListQuery db ((listsYearQuery db pid y).map (·.id)) ≠ []) :
    ∃ mid M l0,
      scanMax (listItemCountsOf (listItemsByListQuery db
        ((listsYearQuery db pid y).map (·.id)))) = (M, some mid)
      ∧ (mid, M) ∈ listItemCountsOf (listItemsByListQuery db
          ((listsYearQuery db pid y).map (·.id)))
      ∧ (∀ e ∈ listItemCountsOf (listItemsByListQuery db
          ((listsYearQuery db pid y).map (·.id))), e.2 ≤ M)
      ∧ (∀ e ∈ listItemCountsOf (listItemsByListQuery db
          ((listsYearQuery db pid y).map (·.id))), e.2 = M → mid ≤ e.1)
      ∧ (listsYearQuery db pid y).find? (fun l => l.id == mid) = some l0
      ∧ (listStatsBlock db noFailures pid y).winner
          = some (mid, jsStrOrD l0.name "Unnamed List", M)
      ∧ (∀ r : WrappedData, (calculatePatientData db noFailures pid (some y)).1 = .ok r →
          r.listStats.listWithMostItems = some ⟨jsStrOrD l0.name "Unnamed List", M⟩) := by
  obtain ⟨it0, hit0⟩ := List.exists_mem_of_ne_nil _ hne
  have hpred := (List.mem_filter.1 (by exact hit0 : it0 ∈ db.listItems.filter _)).2
  have hentne : listItemCountsOf (listItemsByListQuery db
      ((listsYearQuery db pid y).map (·.id))) ≠ [] := by
    cases hq : it0.list_id with
    | none => rw [hq] at hpred; simp at hpred
    | some q =>
      have hqks : q ∈ (listItemsByListQuery db
          ((listsYearQuery db pid y).map (·.id))).filterMap (·.list_id) :=
        List.mem_filterMap.2 ⟨it0, hit0, hq⟩
      have hqkeys : q ∈ jsNumObjKeys ((listItemsByListQuery db
          ((listsYearQuery db pid y).map (·.id))).filterMap (·.list_id)) := by
        unfold jsNumObjKeys
        exact ((List.perm_insertionSort _ _).mem_iff).2 (List.mem_dedup.2 hqks)
      exact List.ne_nil_of_mem (List.mem_map.2 ⟨q, hqkeys, rfl⟩)
  obtain ⟨k, M, hsc, hmem, hmax, hfirst⟩ :=
    scanMax_spec _ hentne (listItemCounts_pos _) (listItemCounts_sorted _)
  have hkek : k ∈ (listsYearQuery db pid y).map (·.id) := by
    obtain ⟨it1, hit1, hid1⟩ := List.mem_filterMap.1 (key_mem_of_entry hmem)
    have hp1 := (List.mem_filter.1 (by exact hit1 : it1 ∈ db.listItems.filter _)).2
    rw [hid1] at hp1
    exact List.elem_iff.1 hp1
  obtain ⟨l1, hl1mem, hl1id⟩ := List.mem_map.1 hkek
  have hk0 : 0 < k := hl1id ▸ hposl l1 hl1mem
  have hfs : ((listsYearQuery db pid y).find? (fun l => l.id == k)).isSome :=
    List.find?_isSome.2 ⟨l1, hl1mem, by simp [hl1id]⟩
  obtain ⟨l0, hfind⟩ := Option.isSome_iff_exists.1 hfs
  have hl0id : l0.id = k := by
    have := List.find?_some hfind
    simpa using this
  have hwin : (listStatsBlock db noFailures pid y).winner
      = some (k, jsStrOrD l0.name "Unnamed List", M) := by
    simp only [listStatsBlock, noFailures]
    simp only [Bool.false_eq_true, if_false]
    rw [if_pos hl, hsc]
    simp only [hk0.ne', ne_eq, not_false_eq_true, if_true, hfind]
    rw [hl0id]
  refine ⟨k, M, l0, hsc, hmem, hmax, hfirst, hfind, hwin, ?_⟩
  intro r hok
  obtain ⟨li, rfl⟩ := calc_ok_elim hok
  show ((listStatsBlock db noFailures pid y).winner.map
    (fun w => (⟨w.2.1, w.2.2⟩ : ListWithMostItemsOut))) = _
  rw [hwin]
  rfl

/-- C4 witness: the amended statement applied to the concrete store dbC4
(two tied lists with ids 3 and 7). -/
theorem claim_C4_witness :
    ∃ mid M l0,
      scanMax (listItemCountsOf (listItemsByListQuery dbC4
        ((listsYearQuery dbC4 1 2024).map (·.id)))) = (M, some mid)
      ∧ (mid, M) ∈ listItemCountsOf (listItemsByListQuery dbC4
          ((listsYearQuery dbC4 1 2024).map (·.id)))
      ∧ (∀ e ∈ listItemCountsOf (listItemsByListQuery dbC4
          ((listsYearQuery dbC4 1 2024).map (·.id))), e.2 ≤ M)
      ∧ (∀ e ∈ listItemCountsOf (listItemsByListQuery dbC4
          ((listsYearQuery dbC4 1 2024).map (·.id))), e.2 = M → mid ≤ e.1)
      ∧ (listsYearQuery dbC4 1 2024).find? (fun l => l.id == mid) = some l0
      ∧ (listStatsBlock dbC4 noFailures 1 2024).winner
          = some (mid, jsStrOrD l0.name "Unnamed List", M)
      ∧ (∀ r : WrappedData, (calculatePatientData dbC4 noFailures 1 (some 2024)).1 = .ok r →
          r.listStats.listWithMostItems = some ⟨jsStrOrD l0.name "Unnamed List", M⟩) :=
  claim_C4_amended dbC4 1 2024 (by decide) (by decide) (by decide)

/-- C10 witness: the statement applied to the concrete store dbC10. -/
theorem claim_C10_witness :
    0 < rC10.listStats.totalListsCreated ∧ rC10.listStats.listWithMostItems = none :=
  claim_C10_zero_item_lists dbC10 1 2024 rC10 (by decide) (by decide) (by decide)

end GavaWrapped
